import Mathlib

/-!
Verification of the row-reconciliation logic of `verifyYoutubeLinks.py`.

The script iterates CSV rows, queries an external metadata endpoint for each
row's URL, derives a SHA-256 fingerprint of title+author, compares it with the
stored values and (unless running in check-only mode) updates the row and
writes it to an output file.  Below we give a shallow embedding: rows are
association lists of string pairs, the external HTTP fetch is a parameter
`fetch : String → Option (String × String)` (title, author on success), and
`process_csv` is modelled as a fold over the row list that tracks counters,
the processed rows, the rows written to output, the error log and the
resource/crash bookkeeping of the real function.
-/

set_option autoImplicit false

namespace VerifyYoutubeLinks

/-! ## SHA-256 (embedding of `hashlib.sha256(...).hexdigest()`) -/

/-- Truncate to a 32-bit word. -/
def w32 (n : Nat) : Nat := n % 4294967296

/-- Right rotation of a 32-bit word by `r` bits (for `x < 2 ^ 32`, `r ≤ 32`). -/
def rotr32 (x r : Nat) : Nat := (x >>> r) + (x % 2 ^ r) * 2 ^ (32 - r)

/-- The SHA-256 round constants (FIPS 180-4, in decimal). -/
def k256 : List Nat :=
  [1116352408, 1899447441, 3049323471, 3921009573, 961987163,
   1508970993, 2453635748, 2870763221, 3624381080, 310598401,
   607225278, 1426881987, 1925078388, 2162078206, 2614888103,
   3248222580, 3835390401, 4022224774, 264347078, 604807628,
   770255983, 1249150122, 1555081692, 1996064986, 2554220882,
   2821834349, 2952996808, 3210313671, 3336571891, 3584528711,
   113926993, 338241895, 666307205, 773529912, 1294757372,
   1396182291, 1695183700, 1986661051, 2177026350, 2456956037,
   2730485921, 2820302411, 3259730800, 3345764771, 3516065817,
   3600352804, 4094571909, 275423344, 430227734, 506948616,
   659060556, 883997877, 958139571, 1322822218, 1537002063,
   1747873779, 1955562222, 2024104815, 2227730452, 2361852424,
   2428436474, 2756734187, 3204031479, 3329325298]

/-- The SHA-256 initial hash value (FIPS 180-4, in decimal). -/
def h256 : List Nat :=
  [1779033703, 3144134277, 1013904242, 2773480762,
   1359893119, 2600822924, 528734635, 1541459225]

/-- Group a byte list into big-endian 32-bit words. -/
def toWordsBE : List Nat → List Nat
  | b0 :: b1 :: b2 :: b3 :: rest =>
      (((b0 * 256 + b1) * 256 + b2) * 256 + b3) :: toWordsBE rest
  | _ => []

/-- Extend the 16 message words to the full 64-entry schedule (`t` steps left). -/
def extendW : Nat → List Nat → List Nat
  | 0, w => w
  | t + 1, w =>
      let i := w.length
      let wm15 := w.getD (i - 15) 0
      let wm2 := w.getD (i - 2) 0
      let s0 := (rotr32 wm15 7) ^^^ (rotr32 wm15 18) ^^^ (wm15 >>> 3)
      let s1 := (rotr32 wm2 17) ^^^ (rotr32 wm2 19) ^^^ (wm2 >>> 10)
      extendW t (w ++ [w32 (w.getD (i - 16) 0 + s0 + w.getD (i - 7) 0 + s1)])

/-- One SHA-256 compression round, state is the 8-tuple (a,…,h). -/
def sha256Round (st : Nat × Nat × Nat × Nat × Nat × Nat × Nat × Nat)
    (kw : Nat × Nat) : Nat × Nat × Nat × Nat × Nat × Nat × Nat × Nat :=
  let (a, b, c, d, e, f, g, h) := st
  let S1 := rotr32 e 6 ^^^ rotr32 e 11 ^^^ rotr32 e 25
  let ch := (e &&& f) ^^^ ((4294967295 - e) &&& g)
  let temp1 := w32 (h + S1 + ch + kw.1 + kw.2)
  let S0 := rotr32 a 2 ^^^ rotr32 a 13 ^^^ rotr32 a 22
  let maj := (a &&& b) ^^^ (a &&& c) ^^^ (b &&& c)
  let temp2 := w32 (S0 + maj)
  (w32 (temp1 + temp2), a, b, c, w32 (d + temp1), e, f, g)

/-- Compress one 64-byte block (given as 16 words) into the hash state. -/
def sha256Compress (H : List Nat) (block : List Nat) : List Nat :=
  let ws := extendW 48 block
  let a0 := H.getD 0 0
  let b0 := H.getD 1 0
  let c0 := H.getD 2 0
  let d0 := H.getD 3 0
  let e0 := H.getD 4 0
  let f0 := H.getD 5 0
  let g0 := H.getD 6 0
  let hh0 := H.getD 7 0
  let (a, b, c, d, e, f, g, h) :=
    (k256.zip ws).foldl sha256Round (a0, b0, c0, d0, e0, f0, g0, hh0)
  [w32 (a0 + a), w32 (b0 + b), w32 (c0 + c), w32 (d0 + d),
   w32 (e0 + e), w32 (f0 + f), w32 (g0 + g), w32 (hh0 + h)]

/-- Fold the compression function over the (padded) byte stream, 64 bytes at a
time; `fuel` bounds the number of blocks. -/
def sha256Blocks : Nat → List Nat → List Nat → List Nat
  | 0, H, _ => H
  | _, H, [] => H
  | fuel + 1, H, bytes =>
      sha256Blocks fuel (sha256Compress H (toWordsBE (bytes.take 64))) (bytes.drop 64)

/-- Big-endian 8-byte encoding of the bit length. -/
def lenBytes (n : Nat) : List Nat :=
  [(n >>> 56) % 256, (n >>> 48) % 256, (n >>> 40) % 256, (n >>> 32) % 256,
   (n >>> 24) % 256, (n >>> 16) % 256, (n >>> 8) % 256, n % 256]

/-- SHA-256 padding: a 0x80 byte, zeros to 56 mod 64, then the bit length. -/
def sha256Pad (msg : List Nat) : List Nat :=
  msg ++ [128] ++ List.replicate ((119 - msg.length % 64) % 64) 0
      ++ lenBytes (8 * msg.length)

/-- The eight 32-bit words of the SHA-256 digest of a byte list. -/
def sha256Words (msg : List Nat) : List Nat :=
  let padded := sha256Pad msg
  sha256Blocks padded.length h256 padded

/-- Lower-case hex character for a value below 16. -/
def hexChar (n : Nat) : Char :=
  if n < 10 then Char.ofNat (48 + n) else Char.ofNat (87 + n)

/-- Eight-digit lower-case hex rendering of a 32-bit word. -/
def hex8 (n : Nat) : String :=
  String.mk ((List.range 8).map (fun i => hexChar ((n >>> (28 - 4 * i)) % 16)))

/-- `hashlib.sha256(bytes).hexdigest()`: lower-case hex digest of a byte list. -/
def sha256hex (msg : List Nat) : String :=
  String.join ((sha256Words msg).map hex8)

/-- UTF-8 encoding of a string as a byte list (Python `str.encode()`). -/
def utf8Bytes (s : String) : List Nat :=
  s.data.flatMap (fun c =>
    let n := c.toNat
    if n < 128 then [n]
    else if n < 2048 then [192 + n / 64, 128 + n % 64]
    else if n < 65536 then [224 + n / 4096, 128 + (n / 64) % 64, 128 + n % 64]
    else [240 + n / 262144, 128 + (n / 4096) % 64, 128 + (n / 64) % 64, 128 + n % 64])

/-! ## Rows (Python `dict` rows from `csv.DictReader`) -/

/-- A CSV row: an ordered association of column names to string values. -/
abbrev Row := List (String × String)

/-- `row.get(k, '')`: the value stored under `k`, or `""` when absent. -/
def rowGet : Row → String → String
  | [], _ => ""
  | (k0, v0) :: rest, k => if k0 = k then v0 else rowGet rest k

/-- `row[k] = v`: replace the binding of `k` in place, appending when absent. -/
def rowSet : Row → String → String → Row
  | [], k, v => [(k, v)]
  | (k0, v0) :: rest, k, v =>
      if k0 = k then (k0, v) :: rest else (k0, v0) :: rowSet rest k v

/-! ## `query_youtube_oembed`

The HTTP request is external: we abstract it as
`fetch : String → Option (String × String)` mapping a video URL to the
`(title, author_name)` pair of a successful oEmbed response, or `none` when
`requests` raises.  The function hashes `title + author_name` with SHA-256. -/

/-- Outcome of `query_youtube_oembed`: `(title, hash, None)` on success,
`(None, None, msg)` on a request error. -/
inductive OembedResult where
  | ok (title : String) (hashed_info : String)
  | err (msg : String)
  deriving DecidableEq, Repr

/-- Embedding of `query_youtube_oembed`, parameterised by the external fetch. -/
def query_youtube_oembed (fetch : String → Option (String × String))
    (video_url : String) : OembedResult :=
  match fetch video_url with
  | some (title, author_name) =>
      .ok title (sha256hex (utf8Bytes (title ++ author_name)))
  | none => .err "Request error or video not found"

/-! ## `check_and_update_row` -/

/-- The result of `check_and_update_row`: the (possibly mutated) row plus the
`(updated, mismatch_found)` pair the Python function returns. -/
structure CheckResult where
  row : Row
  updated : Bool
  mismatch_found : Bool
  deriving DecidableEq, Repr

/-- Embedding of `check_and_update_row` (mutation modelled by returning the
new row). -/
def check_and_update_row (row : Row) (current_title current_hashed_info : String)
    (check_mode : Bool) : CheckResult :=
  let stored_title := rowGet row "Youtube-Title"
  let stored_hashed_info := rowGet row "Hashed Info"
  if stored_title ≠ current_title ∨ stored_hashed_info ≠ current_hashed_info then
    if check_mode then
      ⟨row, false, true⟩
    else
      ⟨rowSet (rowSet row "Youtube-Title" current_title) "Hashed Info" current_hashed_info,
       true, true⟩
  else
    ⟨row, false, false⟩

/-! ## `process_csv` -/

/-- The state accumulated by the row loop of `process_csv`: the two counters,
the final value of every admitted row, the rows written to the output file and
the diagnostics printed to stderr. -/
structure ProcState where
  mismatches : Nat
  matchCount : Nat
  processed : List Row
  written : List Row
  errlog : List String
  deriving DecidableEq, Repr

/-- The initial loop state. -/
def initState : ProcState := ⟨0, 0, [], [], []⟩

/-- The body of the row loop for one admitted row (lines 88–122 of the
script): query oEmbed; on error print a diagnostic to stderr and set
`Youtube-Title` to `"ERROR"`; on success reconcile via `check_and_update_row`
and bump a counter; finally write the row when an output file is configured
and the run is not check-only. -/
def processRow (fetch : String → Option (String × String))
    (output_file check_only : Bool) (st : ProcState) (row : Row) : ProcState :=
  let video_url := rowGet row "URL"
  match query_youtube_oembed fetch video_url with
  | .err e =>
      let row1 := rowSet row "Youtube-Title" "ERROR"
      { mismatches := st.mismatches
        matchCount := st.matchCount
        processed := st.processed ++ [row1]
        written := if output_file && !check_only then st.written ++ [row1] else st.written
        errlog := st.errlog ++ ["Error processing video " ++ video_url ++ ": " ++ e] }
  | .ok t h =>
      let r := check_and_update_row row t h check_only
      { mismatches := if r.mismatch_found then st.mismatches + 1 else st.mismatches
        matchCount := if r.mismatch_found then st.matchCount else st.matchCount + 1
        processed := st.processed ++ [r.row]
        written := if output_file && !check_only then st.written ++ [r.row] else st.written
        errlog := st.errlog }

/-- Line 85 of the script:
`if current_row_number < start_row or (end_row and current_row_number > end_row): continue`.
Python truthiness: `end_row` participates in the upper bound only when it is
not `None` and not `0`. -/
def skipRow (start_row : Int) (end_row : Option Int) (n : Int) : Bool :=
  decide (n < start_row) ||
    (match end_row with
     | some e => decide (e ≠ 0) && decide (e < n)
     | none => false)

/-- The `for row in reader` loop: `n` is the row counter before this row. -/
def processLoop (fetch : String → Option (String × String))
    (output_file check_only : Bool) (start_row : Int) (end_row : Option Int) :
    List Row → Int → ProcState → ProcState
  | [], _, st => st
  | row :: rest, n, st =>
      if skipRow start_row end_row (n + 1) then
        processLoop fetch output_file check_only start_row end_row rest (n + 1) st
      else
        processLoop fetch output_file check_only start_row end_row rest (n + 1)
          (processRow fetch output_file check_only st row)

/-- The observable outcome of a `process_csv` call: the loop state plus the
resource bookkeeping of the epilogue (lines 124–132).  `crash` records an
exception escaping the function: in check-only mode with an output path
configured, line 127 reads the never-assigned local `outfile`, raising
`UnboundLocalError` before `driver.quit()` is reached. -/
structure ProcessResult where
  mismatches : Nat
  matchCount : Nat
  processed : List Row
  written : List Row
  errlog : List String
  outfileOpened : Bool
  outfileClosed : Bool
  driverStarted : Bool
  driverQuit : Bool
  crash : Option String
  deriving DecidableEq, Repr

/-- Embedding of `process_csv`.  `output_file` is whether an output path is
configured; the file contents are the `written` list. -/
def process_csv (fetch : String → Option (String × String)) (output_file : Bool)
    (start_row : Int) (end_row : Option Int) (check_only browser_automation : Bool)
    (rows : List Row) : ProcessResult :=
  let opened := !check_only && output_file
  let st := processLoop fetch output_file check_only start_row end_row rows 0 initState
  if output_file then
    if opened then
      { mismatches := st.mismatches, matchCount := st.matchCount,
        processed := st.processed, written := st.written, errlog := st.errlog,
        outfileOpened := true, outfileClosed := true,
        driverStarted := browser_automation, driverQuit := browser_automation,
        crash := none }
    else
      { mismatches := st.mismatches, matchCount := st.matchCount,
        processed := st.processed, written := st.written, errlog := st.errlog,
        outfileOpened := false, outfileClosed := false,
        driverStarted := browser_automation, driverQuit := false,
        crash := some "UnboundLocalError" }
  else
    { mismatches := st.mismatches, matchCount := st.matchCount,
      processed := st.processed, written := st.written, errlog := st.errlog,
      outfileOpened := false, outfileClosed := false,
      driverStarted := browser_automation, driverQuit := browser_automation,
      crash := none }

/-- The process exit code of `__main__` (lines 145–148): an uncaught exception
exits non-zero; otherwise `sys.exit(1)` when `--check` was given and
mismatches were found, else a normal zero exit. -/
def main_exit (check : Bool) (res : ProcessResult) : Nat :=
  if res.crash.isSome then 1
  else if check && decide (res.mismatches > 0) then 1 else 0

/-! ## Derived notions used to state the claims -/

/-- The sublist of rows the loop admits when the counter starts at `n`
(mirrors the `continue` guard). -/
def admittedFrom (start_row : Int) (end_row : Option Int) : Int → List Row → List Row
  | _, [] => []
  | n, row :: rest =>
      if skipRow start_row end_row (n + 1) then
        admittedFrom start_row end_row (n + 1) rest
      else
        row :: admittedFrom start_row end_row (n + 1) rest

/-- What becomes of an admitted row in check-only mode: unresolvable rows get
their title column set to the `"ERROR"` sentinel, resolvable rows are
untouched. -/
def checkRowOutcome (fetch : String → Option (String × String)) (row : Row) : Row :=
  match fetch (rowGet row "URL") with
  | none => rowSet row "Youtube-Title" "ERROR"
  | some _ => row

/-- A row agrees with the (fixed) external metadata of its URL: either its URL
does not resolve, or the stored title and fingerprint equal the current ones.
Rows written by a non-check-only run always satisfy this. -/
def Reconciled (fetch : String → Option (String × String)) (row : Row) : Prop :=
  match fetch (rowGet row "URL") with
  | some (t, a) =>
      rowGet row "Youtube-Title" = t ∧
      rowGet row "Hashed Info" = sha256hex (utf8Bytes (t ++ a))
  | none => True

/-! ## Helper lemmas -/

theorem rowGet_rowSet_self (row : Row) (k v : String) :
    rowGet (rowSet row k v) k = v := by
  induction row with
  | nil => simp [rowSet, rowGet]
  | cons p rest ih =>
      obtain ⟨k0, v0⟩ := p
      by_cases h : k0 = k <;> simp [rowSet, rowGet, h, ih]

theorem rowGet_rowSet_ne (row : Row) (k k' v : String) (hkk : k ≠ k') :
    rowGet (rowSet row k v) k' = rowGet row k' := by
  induction row with
  | nil => simp [rowSet, rowGet, hkk]
  | cons p rest ih =>
      obtain ⟨k0, v0⟩ := p
      by_cases h : k0 = k
      · subst h
        simp [rowSet, rowGet, hkk]
      · by_cases h' : k0 = k' <;> simp [rowSet, rowGet, h, h', Ne.symm hkk, ih]

theorem processLoop_eq_foldl (fetch : String → Option (String × String))
    (of co : Bool) (start : Int) (e : Option Int) :
    ∀ (rows : List Row) (n : Int) (st : ProcState),
      processLoop fetch of co start e rows n st =
        (admittedFrom start e n rows).foldl (processRow fetch of co) st := by
  intro rows
  induction rows with
  | nil => intro n st; rfl
  | cons row rest ih =>
      intro n st
      cases h : skipRow start e (n + 1) <;>
        simp [processLoop, admittedFrom, h, ih]

theorem admittedFrom_one_none (rows : List Row) :
    ∀ n : Int, 0 ≤ n → admittedFrom 1 none n rows = rows := by
  induction rows with
  | nil => intro n _; rfl
  | cons row rest ih =>
      intro n hn
      have hskip : skipRow 1 none (n + 1) = false := by
        simp [skipRow]
        omega
      simp [admittedFrom, hskip, ih (n + 1) (by omega)]

theorem mem_admittedFrom (start : Int) (e : Option Int) :
    ∀ (rows : List Row) (n : Int) (r : Row),
      r ∈ admittedFrom start e n rows → r ∈ rows := by
  intro rows
  induction rows with
  | nil => intro n r hr; simp [admittedFrom] at hr
  | cons row rest ih =>
      intro n r hr
      cases h : skipRow start e (n + 1)
      case false =>
        simp [admittedFrom, h] at hr
        rcases hr with hr | hr
        · exact hr ▸ List.mem_cons_self _ _
        · exact List.mem_cons_of_mem _ (ih (n + 1) r hr)
      case true =>
        simp [admittedFrom, h] at hr
        exact List.mem_cons_of_mem _ (ih (n + 1) r hr)

theorem processRow_check_mode (fetch : String → Option (String × String))
    (of : Bool) (st : ProcState) (row : Row) :
    (processRow fetch of true st row).processed
        = st.processed ++ [checkRowOutcome fetch row] ∧
      (processRow fetch of true st row).written = st.written := by
  cases hf : fetch (rowGet row "URL") with
  | none => simp [processRow, query_youtube_oembed, checkRowOutcome, hf]
  | some p =>
      obtain ⟨t, a⟩ := p
      simp only [processRow, query_youtube_oembed, checkRowOutcome, hf,
        check_and_update_row]
      constructor
      · split <;> simp
      · simp

theorem foldl_check_mode (fetch : String → Option (String × String)) (of : Bool) :
    ∀ (l : List Row) (st : ProcState),
      ((l.foldl (processRow fetch of true) st).processed
          = st.processed ++ l.map (checkRowOutcome fetch)) ∧
        (l.foldl (processRow fetch of true) st).written = st.written := by
  intro l
  induction l with
  | nil => intro st; simp
  | cons row rest ih =>
      intro st
      obtain ⟨hp, hw⟩ := processRow_check_mode fetch of st row
      obtain ⟨hp', hw'⟩ := ih (processRow fetch of true st row)
      refine ⟨?_, ?_⟩
      · simp [List.foldl_cons, hp', hp]
      · simp [List.foldl_cons, hw', hw]

theorem reconciled_of_processRow_written (fetch : String → Option (String × String))
    (of : Bool) (st : ProcState) (row : Row) :
    ∀ r ∈ (processRow fetch of false st row).written,
      r ∈ st.written ∨ Reconciled fetch r := by
  intro r hr
  cases hf : fetch (rowGet row "URL") with
  | none =>
      simp only [processRow, query_youtube_oembed, hf] at hr
      cases of <;> simp at hr
      · exact Or.inl hr
      · rcases hr with hr | hr
        · exact Or.inl hr
        · refine Or.inr ?_
          subst hr
          unfold Reconciled
          rw [rowGet_rowSet_ne row "Youtube-Title" "URL" "ERROR" (by decide), hf]
          exact trivial
  | some p =>
      obtain ⟨t, a⟩ := p
      simp only [processRow, query_youtube_oembed, hf] at hr
      cases of <;> simp at hr
      · exact Or.inl hr
      · rcases hr with hr | hr
        · exact Or.inl hr
        · refine Or.inr ?_
          subst hr
          unfold check_and_update_row
          by_cases hm : rowGet row "Youtube-Title" ≠ t ∨
              rowGet row "Hashed Info" ≠ sha256hex (utf8Bytes (t ++ a))
          · simp only [hm, if_true, if_pos, Bool.false_eq_true, if_false]
            unfold Reconciled
            rw [rowGet_rowSet_ne _ "Hashed Info" "URL" _ (by decide),
              rowGet_rowSet_ne _ "Youtube-Title" "URL" _ (by decide), hf]
            refine ⟨?_, ?_⟩
            · rw [rowGet_rowSet_ne _ "Hashed Info" "Youtube-Title" _ (by decide),
                rowGet_rowSet_self]
            · rw [rowGet_rowSet_self]
          · simp only [hm, if_neg, if_false]
            push_neg at hm
            unfold Reconciled
            rw [hf]
            exact hm

theorem reconciled_of_foldl_written (fetch : String → Option (String × String))
    (of : Bool) :
    ∀ (l : List Row) (st : ProcState),
      (∀ r ∈ st.written, Reconciled fetch r) →
      ∀ r ∈ (l.foldl (processRow fetch of false) st).written, Reconciled fetch r := by
  intro l
  induction l with
  | nil => intro st hst r hr; exact hst r hr
  | cons row rest ih =>
      intro st hst r hr
      refine ih (processRow fetch of false st row) ?_ r hr
      intro r' hr'
      rcases reconciled_of_processRow_written fetch of st row r' hr' with h | h
      · exact hst r' h
      · exact h

theorem processRow_mismatches_of_reconciled (fetch : String → Option (String × String))
    (of co : Bool) (st : ProcState) (row : Row) (hrow : Reconciled fetch row) :
    (processRow fetch of co st row).mismatches = st.mismatches := by
  cases hf : fetch (rowGet row "URL") with
  | none => simp [processRow, query_youtube_oembed, hf]
  | some p =>
      obtain ⟨t, a⟩ := p
      unfold Reconciled at hrow
      rw [hf] at hrow
      have hrow' : rowGet row "Youtube-Title" = t ∧
          rowGet row "Hashed Info" = sha256hex (utf8Bytes (t ++ a)) := hrow
      have hcond : ¬(rowGet row "Youtube-Title" ≠ t ∨
          rowGet row "Hashed Info" ≠ sha256hex (utf8Bytes (t ++ a))) := by
        push_neg
        exact hrow'
      simp [processRow, query_youtube_oembed, hf, check_and_update_row, hcond]

theorem foldl_mismatches_of_reconciled (fetch : String → Option (String × String))
    (of co : Bool) :
    ∀ (l : List Row), (∀ r ∈ l, Reconciled fetch r) →
      ∀ st : ProcState,
        (l.foldl (processRow fetch of co) st).mismatches = st.mismatches := by
  intro l
  induction l with
  | nil => intro _ st; rfl
  | cons row rest ih =>
      intro hl st
      rw [List.foldl_cons,
        ih (fun r hr => hl r (List.mem_cons_of_mem _ hr)) _,
        processRow_mismatches_of_reconciled fetch of co st row
          (hl row (List.mem_cons_self _ _))]

/-! ## The claims -/

/-- C1 counterexample: in check-only mode a row whose URL fails to resolve is
mutated in memory — its `Youtube-Title` field is set to `"ERROR"` (line 105
runs regardless of `check_only`), so the processed row is not byte-identical
to the row as read. -/
theorem check_only_mutates_on_error :
    (process_csv (fun _ => none) false 1 none true false
        [[("URL", "u")]]).processed =
      [[("URL", "u"), ("Youtube-Title", "ERROR")]] ∧
    [[("URL", "u"), ("Youtube-Title", "ERROR")]] ≠ ([[("URL", "u")]] : List Row) := by
  decide

/-- C1 (amended): in check-only mode nothing is ever written, rows whose URL
resolves are left byte-identical to how they were read (whether or not they
mismatch), and the only mutation ever applied is setting `Youtube-Title` to
`"ERROR"` on the rows whose resolution fails. -/
theorem check_only_row_preservation :
    ∀ (fetch : String → Option (String × String)) (of ba : Bool) (start : Int)
      (e : Option Int) (rows : List Row),
      (process_csv fetch of start e true ba rows).written = [] ∧
      (process_csv fetch of start e true ba rows).processed =
        (admittedFrom start e 0 rows).map (checkRowOutcome fetch) := by
  intro fetch of ba start e rows
  have hloop := processLoop_eq_foldl fetch of true start e rows 0 initState
  obtain ⟨hp, hw⟩ := foldl_check_mode fetch of (admittedFrom start e 0 rows) initState
  have hw2 : (processLoop fetch of true start e rows 0 initState).written = [] := by
    rw [hloop]; exact hw
  have hp2 : (processLoop fetch of true start e rows 0 initState).processed =
      List.map (checkRowOutcome fetch) (admittedFrom start e 0 rows) := by
    rw [hloop, hp]
    simp [initState]
  cases of <;> exact ⟨hw2, hp2⟩

/-- C2 (code bug): the exit-status law holds when no output path is
configured — in check-only mode the exit code is non-zero iff the mismatch
counter is positive, and a non-check-only run never exits non-zero because of
mismatches — but a check-only run with an output path configured exits
non-zero (uncaught `UnboundLocalError` from line 127) even with zero
mismatches over zero admitted rows. -/
theorem exit_status_law :
    (∀ (fetch : String → Option (String × String)) (start : Int) (e : Option Int)
        (ba : Bool) (rows : List Row),
        main_exit true (process_csv fetch false start e true ba rows) ≠ 0 ↔
          0 < (process_csv fetch false start e true ba rows).mismatches) ∧
    (∀ (fetch : String → Option (String × String)) (of : Bool) (start : Int)
        (e : Option Int) (ba : Bool) (rows : List Row),
        main_exit false (process_csv fetch of start e false ba rows) = 0) ∧
    (process_csv (fun _ => none) true 1 none true false []).mismatches = 0 ∧
    main_exit true (process_csv (fun _ => none) true 1 none true false []) = 1 := by
  refine ⟨?_, ?_, by decide, by decide⟩
  · intro fetch start e ba rows
    have hc : (process_csv fetch false start e true ba rows).crash = none := rfl
    have hm : (process_csv fetch false start e true ba rows).mismatches =
        (processLoop fetch false true start e rows 0 initState).mismatches := rfl
    simp only [main_exit, hc, Option.isSome_none, Bool.false_eq_true, if_false, hm]
    by_cases h : 0 < (processLoop fetch false true start e rows 0 initState).mismatches <;>
      simp [h]
  · intro fetch of start e ba rows
    cases of <;> simp [process_csv, main_exit]

/-- C3: `check_and_update_row` reports a mismatch iff the stored
`Youtube-Title` differs from the current title or the stored `Hashed Info`
differs from the current fingerprint (an absent column reading as `""`); when
a mismatch is found outside check mode the two verification fields are set to
the current values and `updated = true`; in every other case the row is
returned unchanged with `updated = false`. -/
theorem check_and_update_row_spec :
    (∀ k : String, rowGet [] k = "") ∧
    ∀ (row : Row) (ct ch : String) (cm : Bool),
      ((check_and_update_row row ct ch cm).mismatch_found = true ↔
        (rowGet row "Youtube-Title" ≠ ct ∨ rowGet row "Hashed Info" ≠ ch)) ∧
      ((check_and_update_row row ct ch cm).updated = true ↔
        ((rowGet row "Youtube-Title" ≠ ct ∨ rowGet row "Hashed Info" ≠ ch) ∧
          cm = false)) ∧
      (check_and_update_row row ct ch cm).row =
        (if (rowGet row "Youtube-Title" ≠ ct ∨ rowGet row "Hashed Info" ≠ ch) ∧
            cm = false
         then rowSet (rowSet row "Youtube-Title" ct) "Hashed Info" ch
         else row) := by
  refine ⟨fun k => rfl, ?_⟩
  intro row ct ch cm
  unfold check_and_update_row
  by_cases hm : rowGet row "Youtube-Title" ≠ ct ∨ rowGet row "Hashed Info" ≠ ch <;>
    cases cm <;> simp [hm]

/-- C4 counterexample: with `end_row = 0` the interval `[1, 0]` is empty, so
the claim admits no row; but Python truthiness (`end_row and …`) disables the
upper bound, and row 1 is resolved, counted as a mismatch and written. -/
theorem end_row_zero_counterexample :
    ¬((1 : Int) ≤ 0) ∧
    (process_csv (fun _ => some ("t", "a")) true 1 (some 0) false false
        [[("URL", "u")]]).mismatches = 1 ∧
    (process_csv (fun _ => some ("t", "a")) true 1 (some 0) false false
        [[("URL", "u")]]).written ≠ [] := by
  decide

/-- C4 (amended): a row is admitted iff its 1-based number `n` satisfies
`start_row ≤ n` and either `end_row` is absent, or `end_row = 0` (also treated
as unbounded above), or `n ≤ end_row`; and a run behaves exactly — counters,
processed rows, output rows, diagnostics, resources — like a run over just the
admitted sublist, so skipped rows are never resolved, written or counted. -/
theorem range_admission :
    (∀ (start : Int) (e : Option Int) (n : Int),
        skipRow start e n = false ↔
          (start ≤ n ∧ match e with
            | none => True
            | some v => v = 0 ∨ n ≤ v)) ∧
    ∀ (fetch : String → Option (String × String)) (of co ba : Bool)
      (start : Int) (e : Option Int) (rows : List Row),
      process_csv fetch of start e co ba rows =
        process_csv fetch of 1 none co ba (admittedFrom start e 0 rows) := by
  constructor
  · intro start e n
    cases e with
    | none => simp [skipRow]
    | some v =>
        simp [skipRow]
        omega
  · intro fetch of co ba start e rows
    have h0 : processLoop fetch of co start e rows 0 initState =
        processLoop fetch of co 1 none (admittedFrom start e 0 rows) 0 initState := by
      rw [processLoop_eq_foldl, processLoop_eq_foldl,
        admittedFrom_one_none (admittedFrom start e 0 rows) 0 (le_refl 0)]
    simp only [process_csv, h0]

/-- C5: when the resolver fails on an admitted row, the row's `Youtube-Title`
is set to the `"ERROR"` sentinel, a diagnostic is appended to the error
stream, neither counter changes, and the loop continues with the remaining
rows. -/
theorem resolver_failure_row (fetch : String → Option (String × String))
    (of co : Bool) (st : ProcState) (row : Row) (rest : List Row)
    (start : Int) (e : Option Int) (n : Int)
    (h1 : fetch (rowGet row "URL") = none)
    (h2 : skipRow start e (n + 1) = false) :
    (processRow fetch of co st row).mismatches = st.mismatches ∧
    (processRow fetch of co st row).matchCount = st.matchCount ∧
    (processRow fetch of co st row).processed =
      st.processed ++ [rowSet row "Youtube-Title" "ERROR"] ∧
    rowGet (rowSet row "Youtube-Title" "ERROR") "Youtube-Title" = "ERROR" ∧
    (processRow fetch of co st row).errlog = st.errlog ++
      ["Error processing video " ++ rowGet row "URL" ++ ": " ++
        "Request error or video not found"] ∧
    processLoop fetch of co start e (row :: rest) n st =
      processLoop fetch of co start e rest (n + 1) (processRow fetch of co st row) := by
  refine ⟨?_, ?_, ?_, rowGet_rowSet_self _ _ _, ?_, ?_⟩ <;>
    simp [processRow, processLoop, query_youtube_oembed, h1, h2]

/-- C5 witness: a concrete failing row at the head of a run. -/
theorem resolver_failure_row_witness :
    (processRow (fun _ => none) true false initState [("URL", "u")]).mismatches = 0 ∧
    (processRow (fun _ => none) true false initState [("URL", "u")]).matchCount = 0 ∧
    (processRow (fun _ => none) true false initState [("URL", "u")]).processed =
      [] ++ [rowSet [("URL", "u")] "Youtube-Title" "ERROR"] ∧
    rowGet (rowSet [("URL", "u")] "Youtube-Title" "ERROR") "Youtube-Title" = "ERROR" ∧
    (processRow (fun _ => none) true false initState [("URL", "u")]).errlog =
      [] ++ ["Error processing video " ++ rowGet [("URL", "u")] "URL" ++ ": " ++
        "Request error or video not found"] ∧
    processLoop (fun _ => none) true false 1 none [[("URL", "u")]] 0 initState =
      processLoop (fun _ => none) true false 1 none [] (0 + 1)
        (processRow (fun _ => none) true false initState [("URL", "u")]) :=
  resolver_failure_row (fun _ => none) true false initState [("URL", "u")] [] 1 none 0
    rfl rfl

/-- C6: on a successful resolution of `(title, author)` the computed
fingerprint is the lower-case hex SHA-256 digest of the UTF-8 bytes of
`title ++ author` (a pure function of the pair, hence identical across
invocations and runs); the digest function agrees with the standard SHA-256
test vector for `"abc"`. -/
theorem query_youtube_oembed_fingerprint :
    (∀ (fetch : String → Option (String × String)) (url title author : String),
        fetch url = some (title, author) →
        query_youtube_oembed fetch url =
          OembedResult.ok title (sha256hex (utf8Bytes (title ++ author)))) ∧
    sha256hex (utf8Bytes "abc") =
      "ba7816bf8f01cfea414140de5dae2223b00361a396177a9cb410ff61f20015ad" := by
  constructor
  · intro fetch url title author hf
    simp [query_youtube_oembed, hf]
  · rfl

/-- C6 witness: the fingerprint of the spec's scenario pair. -/
theorem query_youtube_oembed_fingerprint_witness :
    query_youtube_oembed (fun _ => some ("New Title", "Chan")) "u" =
      OembedResult.ok "New Title" (sha256hex (utf8Bytes ("New Title" ++ "Chan"))) :=
  query_youtube_oembed_fingerprint.1 (fun _ => some ("New Title", "Chan")) "u"
    "New Title" "Chan" rfl

/-- C7: with the resolver a fixed function of the URL, feeding the output of a
non-check-only run back in as input under the same parameters yields zero
mismatches in the second run. -/
theorem second_run_no_mismatches (fetch : String → Option (String × String))
    (ba : Bool) (start : Int) (e : Option Int) (rows : List Row) :
    (process_csv fetch true start e false ba
        ((process_csv fetch true start e false ba rows).written)).mismatches = 0 := by
  have h1 : ∀ r ∈ (processLoop fetch true false start e rows 0 initState).written,
      Reconciled fetch r := by
    rw [processLoop_eq_foldl]
    refine reconciled_of_foldl_written fetch true _ initState ?_
    intro r hr
    simp [initState] at hr
  have h2 : (process_csv fetch true start e false ba rows).written =
      (processLoop fetch true false start e rows 0 initState).written := rfl
  have h3 : (process_csv fetch true start e false ba
      ((process_csv fetch true start e false ba rows).written)).mismatches =
      (processLoop fetch true false start e
        ((process_csv fetch true start e false ba rows).written) 0 initState).mismatches :=
    rfl
  rw [h3, processLoop_eq_foldl]
  exact foldl_mismatches_of_reconciled fetch true false _
    (fun r hr => h1 r (h2 ▸ mem_admittedFrom start e _ 0 r hr)) initState

/-- C8 (code bug): in check-only mode with an output path configured no output
file is opened or written, but the run does not complete normally: the
epilogue's `outfile.close()` reads the never-assigned local and the function
raises `UnboundLocalError`, unlike the same run without an output path. -/
theorem check_only_output_path :
    (process_csv (fun _ => none) true 1 none true false []).outfileOpened = false ∧
    (process_csv (fun _ => none) true 1 none true false []).written = [] ∧
    (process_csv (fun _ => none) true 1 none true false []).crash =
      some "UnboundLocalError" ∧
    (process_csv (fun _ => none) false 1 none true false []).crash = none := by
  decide

/-- C9 (code bug): on the exit path where check-only mode is combined with an
output path and browser automation, the crash at `outfile.close()` happens
before `driver.quit()`, so the started browser session is never released
(while a normal non-check-only run does release it). -/
theorem browser_session_release :
    (process_csv (fun _ => none) true 1 none true true []).driverStarted = true ∧
    (process_csv (fun _ => none) true 1 none true true []).driverQuit = false ∧
    (process_csv (fun _ => none) true 1 none true true []).crash =
      some "UnboundLocalError" ∧
    (process_csv (fun _ => none) true 1 none false true []).driverQuit = true := by
  decide

/-- C10: when the resolver fails on an admitted row, only the row's
`Youtube-Title` field is modified (to `"ERROR"`); every other field — in
particular a previously stored `Hashed Info` fingerprint — keeps its prior
contents, and in non-check-only mode with an output file the row is written in
exactly that state. -/
theorem resolver_failure_frame (fetch : String → Option (String × String))
    (st : ProcState) (row : Row)
    (h1 : fetch (rowGet row "URL") = none) :
    (processRow fetch true false st row).written =
      st.written ++ [rowSet row "Youtube-Title" "ERROR"] ∧
    rowGet (rowSet row "Youtube-Title" "ERROR") "Youtube-Title" = "ERROR" ∧
    (∀ k : String, k ≠ "Youtube-Title" →
      rowGet (rowSet row "Youtube-Title" "ERROR") k = rowGet row k) ∧
    rowGet (rowSet row "Youtube-Title" "ERROR") "Hashed Info" =
      rowGet row "Hashed Info" := by
  refine ⟨?_, rowGet_rowSet_self _ _ _, ?_, ?_⟩
  · simp [processRow, query_youtube_oembed, h1]
  · intro k hk
    exact rowGet_rowSet_ne _ _ _ _ (Ne.symm hk)
  · exact rowGet_rowSet_ne _ _ _ _ (by decide)

/-- C10 witness: a failing row carrying a stale fingerprint. -/
theorem resolver_failure_frame_witness :
    (processRow (fun _ => none) true false initState
        [("URL", "u"), ("Hashed Info", "stale")]).written =
      [] ++ [rowSet [("URL", "u"), ("Hashed Info", "stale")] "Youtube-Title" "ERROR"] ∧
    rowGet (rowSet [("URL", "u"), ("Hashed Info", "stale")] "Youtube-Title" "ERROR")
      "Youtube-Title" = "ERROR" ∧
    (∀ k : String, k ≠ "Youtube-Title" →
      rowGet (rowSet [("URL", "u"), ("Hashed Info", "stale")] "Youtube-Title" "ERROR") k =
        rowGet [("URL", "u"), ("Hashed Info", "stale")] k) ∧
    rowGet (rowSet [("URL", "u"), ("Hashed Info", "stale")] "Youtube-Title" "ERROR")
      "Hashed Info" = rowGet [("URL", "u"), ("Hashed Info", "stale")] "Hashed Info" :=
  resolver_failure_frame (fun _ => none) initState
    [("URL", "u"), ("Hashed Info", "stale")] rfl

end VerifyYoutubeLinks
